import Mathlib

/-!
Verification of the danmu scraping / analysis / serving pipeline.

Shallow embedding of the three Python scripts:
  * `pa.py`    — collector (cid resolution, overlay-comment fetch, paginated reply fetch),
  * `qgqx.py`  — analyzer (line parsing, sentiment classification, word-frequency report parsing),
  * `app.py`   — server (word-frequency, sentiment and keyword-search endpoints).

Python strings are modelled as `List Char`; machine integers as `Int`/`Nat`;
fallible operations as `Option`.  Network effects are modelled by passing the
response data (or an explicit failure marker) as an argument.
-/

namespace JJLPC

/-- Python strings, modelled as lists of characters. -/
abbrev Str := List Char

/-- Python `str.strip()` with no argument: remove leading and trailing
whitespace.  (Python strips the full Unicode whitespace class; the inputs here
are ASCII-whitespace delimited, for which `Char.isWhitespace` agrees.) -/
def pyStrip (cs : Str) : Str :=
  ((cs.dropWhile Char.isWhitespace).reverse.dropWhile Char.isWhitespace).reverse

/-- `line.find('.')` followed by the slice `line[dot_pos + 1:]` in
`qgqx.read_danmu_file`: `some` of the suffix after the first `'.'`, or `none`
when the line has no `'.'` (Python `find` returns `-1`). -/
def afterFirstDot : Str → Option Str
  | [] => none
  | c :: rest => if c = '.' then some rest else afterFirstDot rest

/-- Content extraction of `qgqx.read_danmu_file` (lines 20–26): everything
after the first literal `'.'`, stripped; the whole stripped line when there is
no `'.'`. -/
def extractContent (line : Str) : Str :=
  match afterFirstDot line with
  | some rest => pyStrip rest
  | none => pyStrip line

/-- `line.find('.')` / slice as written a second time in `app.search_keyword`
(lines 60–66). -/
def appAfterFirstDot : Str → Option Str
  | [] => none
  | c :: rest => if c = '.' then some rest else appAfterFirstDot rest

/-- Content extraction as written in `app.search_keyword` (lines 60–66). -/
def appExtractContent (line : Str) : Str :=
  match appAfterFirstDot line with
  | some rest => pyStrip rest
  | none => pyStrip line

/-- Literal substring containment: Python `needle in haystack`, and also
`re.search(re.escape(keyword), content)` in `app.search_keyword` (escaping
makes the pattern a literal). -/
def containsSub (needle : Str) : Str → Bool
  | [] => decide (needle = [])
  | c :: rest => needle.isPrefixOf (c :: rest) || containsSub needle rest

/-- Python `s.split('\t')`: split at every tab, keeping empty fields
(`"".split('\t') == ['']`). -/
def splitTab : Str → List Str
  | [] => [[]]
  | c :: rest =>
    if c = '\t' then [] :: splitTab rest
    else
      match splitTab rest with
      | [] => [[c]]
      | hd :: tl => (c :: hd) :: tl

/-- Digit run after the first digit of a Python integer literal: ASCII digits
with single underscores allowed strictly between digits. -/
def digitsTail : Str → Bool
  | [] => true
  | '_' :: c :: rest => c.isDigit && digitsTail rest
  | '_' :: [] => false
  | c :: rest => c.isDigit && digitsTail rest

/-- A valid unsigned digit string for Python `int()`: nonempty, starts with a
digit, underscores only between digits. -/
def validDigits : Str → Bool
  | [] => false
  | c :: rest => c.isDigit && digitsTail rest

/-- Numeric value of a digit string, ignoring underscore separators. -/
def digitsVal (cs : Str) : Nat :=
  cs.foldl (fun acc c => if c = '_' then acc else acc * 10 + (c.toNat - 48)) 0

/-- Python `int(s)` on a decimal string: strip surrounding whitespace, optional
sign, then digits (with underscore separators); `none` models the `ValueError`
raised otherwise.  (Non-ASCII digit forms are not modelled; the report data is
ASCII-numeric.) -/
def pyInt (cs : Str) : Option Int :=
  match pyStrip cs with
  | '+' :: rest => if validDigits rest then some (digitsVal rest) else none
  | '-' :: rest => if validDigits rest then some (-(digitsVal rest : Int)) else none
  | rest => if validDigits rest then some (digitsVal rest) else none

/-! ## Analyzer (`qgqx.py`) -/

/-- One parsed danmu line: `{'content': ..., 'time': ...}` as appended by
`read_danmu_file`. -/
structure DanmuRecord where
  content : Str
  time : Nat
deriving DecidableEq, Repr

/-- The synthetic timestamp `(i - 1) % 1000` assigned to the `i`-th (1-based)
line in `read_danmu_file` (lines 28–35). -/
def timeStamp (i : Nat) : Nat := (i - 1) % 1000

/-- The `for i, line in enumerate(f, 1)` loop body of `read_danmu_file`: every
line yields one record (the operations in the `try` block — `str.find`,
slicing, `strip`, `append` — are total on `str`, so the `except` branch has no
exceptional source). -/
def readLoop : Nat → List Str → List DanmuRecord
  | _, [] => []
  | i, line :: rest => ⟨extractContent line, timeStamp i⟩ :: readLoop (i + 1) rest

/-- `qgqx.read_danmu_file` on the list of lines of the file (enumeration starts
at 1). -/
def read_danmu_file (lines : List Str) : List DanmuRecord :=
  readLoop 1 lines

/-- `qgqx.classify_sentiment` (lines 49–55); scores are modelled as rationals.
`"正面"` is the positive class, `"负面"` negative, `"中性"` neutral. -/
def classify_sentiment (score : ℚ) : Str :=
  if score > 0.6 then "正面".data
  else if score < 0.4 then "负面".data
  else "中性".data

/-- One entry of the word-frequency artifact written by
`export_word_freq_data`. -/
structure WordFreqEntry where
  word : Str
  freq : Int
  pos : Str
deriving DecidableEq, Repr

/-- The index-independent part of the `export_word_freq_data` loop body
(lines 156–191): drop column-header rows (containing both `'词语'` and
`'词频'`), drop blank rows, split the stripped row on tabs, require at least
two fields and an integer second field, default the part-of-speech to
`"未知"`. -/
def keepReportLine (line : Str) : Option WordFreqEntry :=
  if containsSub "词语".data line && containsSub "词频".data line then none
  else if pyStrip line = [] then none
  else
    match splitTab (pyStrip line) with
    | w :: f2 :: rest =>
      match pyInt f2 with
      | some n => some ⟨w, n, match rest with | p :: _ => p | [] => "未知".data⟩
      | none => none
    | _ => none

/-- The `for i, line in enumerate(f)` loop of `export_word_freq_data`
(0-based enumeration; the first two lines are skipped by the `i < 2` guard). -/
def exportLoop : Nat → List Str → List WordFreqEntry
  | _, [] => []
  | i, line :: rest =>
    if i < 2 then exportLoop (i + 1) rest
    else
      match keepReportLine line with
      | some e => e :: exportLoop (i + 1) rest
      | none => exportLoop (i + 1) rest

/-- `qgqx.export_word_freq_data` on the list of lines of the report file. -/
def export_word_freq_data (lines : List Str) : List WordFreqEntry :=
  exportLoop 0 lines

/-! ## Server (`app.py`) -/

/-- JSON values, as produced by the Flask endpoints via `jsonify`. -/
inductive Json where
  | str : Str → Json
  | num : Int → Json
  | arr : List Json → Json
  | obj : List (Str × Json) → Json

/-- Key lookup in a JSON object payload; `none` means the key is absent. -/
def jLookup (k : Str) : List (Str × Json) → Option Json
  | [] => none
  | (k2, v) :: rest => if k2 = k then some v else jLookup k rest

/-- One search hit `{'index': i, 'content': c}` appended by
`app.search_keyword`. -/
structure SearchItem where
  index : Nat
  content : Str
deriving DecidableEq, Repr

/-- The JSON object serialized for one search hit. -/
def searchItemJson (r : SearchItem) : Json :=
  .obj [("index".data, .num r.index), ("content".data, .str r.content)]

/-- The `for i, line in enumerate(bilibili_danmu, 1)` loop of
`app.search_keyword` (lines 56–78): `cnt` counts the results collected so far;
after a hit is appended the loop breaks as soon as `len(results) >= limit`. -/
def searchLoop (kw : Str) (limit : Int) : List Str → Nat → Nat → List SearchItem
  | [], _, _ => []
  | line :: rest, i, cnt =>
    let c := appExtractContent line
    if containsSub kw c then
      if ((cnt : Int) + 1) ≥ limit then [⟨i, c⟩]
      else ⟨i, c⟩ :: searchLoop kw limit rest (i + 1) (cnt + 1)
    else searchLoop kw limit rest (i + 1) cnt

/-- Modelled from the spec: the full match list — scan parsed line contents in
file order and collect `{index, content}` pairs (index = 1-based original line
number) for every line whose content contains the keyword as a literal
substring, with no cap. -/
def specSearchMatches (kw : Str) : List Str → Nat → List SearchItem
  | [], _ => []
  | line :: rest, i =>
    let c := appExtractContent line
    if containsSub kw c then ⟨i, c⟩ :: specSearchMatches kw rest (i + 1)
    else specSearchMatches kw rest (i + 1)

/-- `app.search_keyword` (lines 43–86): the HTTP status code (Flask `jsonify`
responds 200) and the JSON payload as a key/value list.  `kwParam` is the
`keyword` query parameter (`none` when absent, defaulted to `''` by
`request.args.get('keyword', '')`); `limit` is the parsed `limit` parameter. -/
def search_keyword (danmu : List Str) (kwParam : Option Str) (limit : Int) :
    Nat × List (Str × Json) :=
  let keyword := kwParam.getD []
  if keyword = [] then
    (200, [("status".data, .str "error".data),
           ("message".data, .str "请输入关键词".data)])
  else
    let results := searchLoop keyword limit danmu 1 0
    (200, [("status".data, .str "success".data),
           ("keyword".data, .str keyword),
           ("total".data, .num results.length),
           ("data".data, .arr (results.map searchItemJson))])

/-- `app.get_word_frequency` (lines 21–31): slice the loaded artifact to its
first 100 entries (`word_freq_data[:100]`) and wrap it in the success
envelope. -/
def get_word_frequency (word_freq_data : List Json) : Nat × List (Str × Json) :=
  (200, [("status".data, .str "success".data),
         ("data".data, .arr (word_freq_data.take 100))])

/-! ## Collector (`pa.py`) -/

/-- Outcome of the overlay-comment ("danmu") fetch of `pa.crawl_danmu`: the
HTTP request can fail, the XML parse can fail, or parsing succeeds and yields
the `<d>` tags in document order, each carrying its text (`none` models a tag
whose `.text` is `None`). -/
inductive DanmuFetch where
  | requestError
  | parseError
  | ok (tags : List (Option Str))

/-- The `for d_tag in xml_tree.xpath("//d")` loop of `crawl_danmu`: strip each
tag's text and keep nonempty ones.  A tag whose text is `None` raises
`AttributeError` on `.strip()`; the surrounding `except` catches it and the
list accumulated so far is returned. -/
def extractTagsLoop : List (Option Str) → List Str → List Str
  | [], acc => acc.reverse
  | none :: _, acc => acc.reverse
  | some t :: rest, acc =>
    let c := pyStrip t
    if c = [] then extractTagsLoop rest acc else extractTagsLoop rest (c :: acc)

/-- `pa.crawl_danmu` (lines 42–66): on a request or parse failure the `except`
branch is reached before any append, so the initial empty list is returned. -/
def crawl_danmu : DanmuFetch → List Str
  | .requestError => []
  | .parseError => []
  | .ok tags => extractTagsLoop tags []

/-- Observable outcome of `pa.main` (lines 149–171): whether the run aborted at
cid resolution, whether the danmu file was saved, and whether the reply-crawl
stage was reached. -/
structure MainTrace where
  aborted : Bool
  danmuSaved : Bool
  commentsStageRun : Bool
deriving DecidableEq, Repr

/-- `pa.main`: abort when the cid is empty; otherwise crawl danmu, save only
when the list is nonempty (`if danmu_list:`), and continue to the reply
stage. -/
def mainRun (cid : Str) (fetch : DanmuFetch) : MainTrace :=
  if cid = [] then ⟨true, false, false⟩
  else ⟨false, decide (crawl_danmu fetch ≠ []), true⟩

/-- One attempt at fetching a reply page in `pa.crawl_comments`: an exception
(request error, HTTP error or JSON decode error), a response with non-zero
status code, or a successful response carrying its list of reply messages. -/
inductive PageResult where
  | exn
  | badCode
  | ok (replies : List Str)

/-- The page oracle on which every fetch of every page raises an exception. -/
def alwaysExn : Nat → Nat → PageResult := fun _ _ => .exn

/-- The `while page < max_page` loop of `pa.crawl_comments` (lines 68–121),
with fuel counting loop iterations: `oracle page attempt` is the result of the
`attempt`-th try at page `page`; `none` means the fuel ran out with the loop
still running.  On an exception the loop sleeps and `continue`s — `page` is
not incremented.  On success, replies with empty stripped message text are
dropped and `page` advances. -/
def crawl_comments_fuel (oracle : Nat → Nat → PageResult) :
    Nat → Nat → Nat → List Str → Option (List Str)
  | 0, _, _, _ => none
  | fuel + 1, page, attempt, acc =>
    if page < 100 then
      match oracle page attempt with
      | .exn => crawl_comments_fuel oracle fuel page (attempt + 1) acc
      | .badCode => some acc
      | .ok replies =>
        if replies.isEmpty then some acc
        else
          crawl_comments_fuel oracle fuel (page + 1) 0
            (acc ++ replies.filterMap fun m =>
              if pyStrip m = [] then none else some (pyStrip m))
    else some acc

/-! ## Example inputs -/

/-- The overlay-comment file of the spec's search-endpoint example. -/
def exDanmu : List Str :=
  ["1. I love cats\n".data, "2. dogs are great\n".data, "3. I love dogs\n".data]

/-- An example word-frequency report: two header lines, a column-header row,
a well-formed row, a row with a non-numeric frequency, and a two-field row. -/
def exReport : List Str :=
  ["词频统计报告".data, "====".data, "词语\t词频\t词性".data,
   "研究\t120\t名词".data, "abc\txyz".data, "测试\t5".data]

/-! ## Helper lemmas -/

lemma afterFirstDot_of_not_mem (cs : Str) (h : '.' ∉ cs) : afterFirstDot cs = none := by
  induction cs with
  | nil => rfl
  | cons c rest ih =>
    have hc : ¬ c = '.' := by
      intro e
      exact h (by simp [e])
    simp only [afterFirstDot, if_neg hc]
    exact ih fun m => h (List.mem_cons_of_mem _ m)

lemma afterFirstDot_append (pre post : Str) (h : '.' ∉ pre) :
    afterFirstDot (pre ++ '.' :: post) = some post := by
  induction pre with
  | nil => simp [afterFirstDot]
  | cons c rest ih =>
    have hc : ¬ c = '.' := by
      intro e
      exact h (by simp [e])
    simp only [List.cons_append, afterFirstDot, if_neg hc]
    exact ih fun m => h (List.mem_cons_of_mem _ m)

lemma appAfterFirstDot_eq (cs : Str) : appAfterFirstDot cs = afterFirstDot cs := by
  induction cs with
  | nil => rfl
  | cons c rest ih =>
    by_cases hc : c = '.' <;> simp [appAfterFirstDot, afterFirstDot, hc, ih]

lemma appExtractContent_eq (line : Str) : appExtractContent line = extractContent line := by
  unfold appExtractContent extractContent
  rw [appAfterFirstDot_eq]

lemma readLoop_length (lines : List Str) : ∀ j, (readLoop j lines).length = lines.length := by
  induction lines with
  | nil => intro j; rfl
  | cons l rest ih =>
    intro j
    simp only [readLoop, List.length_cons, ih (j + 1)]

lemma readLoop_get? (lines : List Str) : ∀ j i,
    (readLoop j lines).get? i =
      (lines.get? i).map fun l => ⟨extractContent l, timeStamp (j + i)⟩ := by
  induction lines with
  | nil => intro j i; simp [readLoop]
  | cons l rest ih =>
    intro j i
    cases i with
    | zero => simp [readLoop]
    | succ k =>
      have harg : j + 1 + k = j + (k + 1) := by omega
      simp only [readLoop, List.get?_cons_succ, ih (j + 1) k, harg]

lemma exportLoop_from2 (lines : List Str) : ∀ i, 2 ≤ i →
    exportLoop i lines = lines.filterMap keepReportLine := by
  induction lines with
  | nil => intro i _; rfl
  | cons l rest ih =>
    intro i hi
    have h2 : ¬ i < 2 := by omega
    cases hk : keepReportLine l <;>
      simp [exportLoop, h2, hk, List.filterMap_cons, ih (i + 1) (by omega)]

lemma searchLoop_eq_take (kw : Str) (limit : Int) :
    ∀ (lines : List Str) (i cnt : Nat), (cnt : Int) < limit →
      searchLoop kw limit lines i cnt =
        (specSearchMatches kw lines i).take (limit - cnt).toNat := by
  intro lines
  induction lines with
  | nil => intro i cnt _; simp [searchLoop, specSearchMatches]
  | cons l rest ih =>
    intro i cnt hcnt
    by_cases hm : containsSub kw (appExtractContent l) = true
    · by_cases hb : ((cnt : Int) + 1) ≥ limit
      · have h1 : (limit - cnt).toNat = 1 := by omega
        simp only [searchLoop, specSearchMatches, hm, if_true, if_pos hb, h1,
          List.take_succ_cons, List.take_zero]
      · have h1 : (limit - cnt).toNat = (limit - (cnt + 1 : Nat)).toNat + 1 := by
          push_cast
          omega
        have h2 : ((cnt + 1 : Nat) : Int) < limit := by push_cast; omega
        simp only [searchLoop, specSearchMatches, hm, if_true, if_neg hb, h1,
          List.take_succ_cons, ih (i + 1) (cnt + 1) h2]
    · simp [searchLoop, specSearchMatches, hm, ih (i + 1) cnt hcnt]

lemma crawl_alwaysExn_none : ∀ (fuel page attempt : Nat) (acc : List Str),
    page < 100 → crawl_comments_fuel alwaysExn fuel page attempt acc = none := by
  intro fuel
  induction fuel with
  | zero => intro page attempt acc _; rfl
  | succ n ih =>
    intro page attempt acc h
    simp only [crawl_comments_fuel, if_pos h, alwaysExn]
    exact ih page (attempt + 1) acc h

/-! ## Claims -/

/-- C1: the claim asserts that the reply-pagination loop of
`pa.crawl_comments` terminates for every sequence of page responses, including
a page whose fetch raises an exception on every attempt.  It does not: the
`except` branch does `continue` without incrementing `page`, so under the
always-failing oracle the loop is still running after every finite number of
iterations — the 100-page cap (whose own comment says it prevents infinite
loops) never engages. -/
theorem c1_reply_loop_diverges_on_persistent_exception :
    ∀ fuel : Nat, crawl_comments_fuel alwaysExn fuel 0 0 [] = none :=
  fun fuel => crawl_alwaysExn_none fuel 0 0 [] (by norm_num)

/-- C3: content extraction returns everything after the first literal `'.'`,
trimmed, and the whole trimmed line when there is no `'.'`; `"12. hello
world"` yields `"hello world"` and `"3.5 stars!"` yields `"5 stars!"`; the
analyzer (`qgqx.read_danmu_file`) and the server's search endpoint
(`app.search_keyword`) apply the same extraction. -/
theorem c3_content_extraction (pre post other : Str)
    (h1 : '.' ∉ pre) (h2 : '.' ∉ other) :
    extractContent (pre ++ '.' :: post) = pyStrip post ∧
    extractContent other = pyStrip other ∧
    extractContent "12. hello world".data = "hello world".data ∧
    extractContent "3.5 stars!".data = "5 stars!".data ∧
    ∀ line, appExtractContent line = extractContent line := by
  refine ⟨?_, ?_, by decide, by decide, appExtractContent_eq⟩
  · unfold extractContent
    rw [afterFirstDot_append pre post h1]
  · unfold extractContent
    rw [afterFirstDot_of_not_mem other h2]

/-- Witness for C3 at `pre = "12"`, `post = " hello world"`,
`other = "no dot here"`. -/
theorem c3_content_extraction_witness :
    ('.' ∉ "12".data) ∧ ('.' ∉ "no dot here".data) ∧
    extractContent ("12".data ++ '.' :: " hello world".data) = pyStrip " hello world".data ∧
    extractContent "no dot here".data = pyStrip "no dot here".data :=
  ⟨by decide, by decide,
   (c3_content_extraction "12".data " hello world".data "no dot here".data
     (by decide) (by decide)).1,
   (c3_content_extraction "12".data " hello world".data "no dot here".data
     (by decide) (by decide)).2.1⟩

/-- C4: for every score in `[0, 1]`, `qgqx.classify_sentiment` returns the
positive class iff the score is strictly above 0.6 and the negative class iff
it is strictly below 0.4, and the neutral class otherwise; in particular 0.6
and 0.4 classify as neutral, 0.61 as positive and 0.39 as negative. -/
theorem c4_sentiment_thresholds (s : ℚ) (hlo : 0 ≤ s) (hhi : s ≤ 1) :
    (classify_sentiment s = "正面".data ↔ 0.6 < s) ∧
    (classify_sentiment s = "负面".data ↔ s < 0.4) ∧
    (classify_sentiment s = "中性".data ↔ 0.4 ≤ s ∧ s ≤ 0.6) ∧
    classify_sentiment 0.6 = "中性".data ∧
    classify_sentiment 0.4 = "中性".data ∧
    classify_sentiment 0.61 = "正面".data ∧
    classify_sentiment 0.39 = "负面".data := by
  have hpn : "正面".data ≠ "负面".data := by decide
  have hpm : "正面".data ≠ "中性".data := by decide
  have hnm : "负面".data ≠ "中性".data := by decide
  refine ⟨?_, ?_, ?_, ?_, ?_, ?_, ?_⟩
  · unfold classify_sentiment
    split_ifs with hgt hlt
    · simp [hgt]
    · simp [hpn.symm]
      linarith
    · simp [hpm.symm]
      linarith
  · unfold classify_sentiment
    split_ifs with hgt hlt
    · simp [hpn]
      linarith
    · simp [hlt]
    · simp [hnm.symm]
      linarith
  · unfold classify_sentiment
    split_ifs with hgt hlt
    · simp [hpm]
      intro h
      linarith
    · simp [hnm]
      intro h
      linarith
    · simp
      constructor <;> [linarith; linarith]
  · unfold classify_sentiment
    norm_num
  · unfold classify_sentiment
    norm_num
  · unfold classify_sentiment
    norm_num
  · unfold classify_sentiment
    norm_num

/-- Witness for C4 at `s = 0.5`. -/
theorem c4_sentiment_thresholds_witness :
    (0 : ℚ) ≤ 0.5 ∧ (0.5 : ℚ) ≤ 1 ∧
    (classify_sentiment 0.5 = "正面".data ↔ (0.6 : ℚ) < 0.5) :=
  ⟨by norm_num, by norm_num,
   (c4_sentiment_thresholds 0.5 (by norm_num) (by norm_num)).1⟩

/-- C6: when the overlay-comment request or the XML parse fails,
`pa.crawl_danmu` returns the empty list (nothing has been appended yet), and
`pa.main` does not abort: the danmu save step is skipped (`if danmu_list:`)
and the run continues to the reply-crawl stage. -/
theorem c6_danmu_fetch_failure_yields_empty (cid : Str) (fetch : DanmuFetch)
    (hcid : cid ≠ []) (hf : fetch = .requestError ∨ fetch = .parseError) :
    crawl_danmu fetch = [] ∧
    (mainRun cid fetch).aborted = false ∧
    (mainRun cid fetch).danmuSaved = false ∧
    (mainRun cid fetch).commentsStageRun = true := by
  rcases hf with h | h <;> subst h <;>
    simp [crawl_danmu, mainRun, hcid]

/-- Witness for C6 at `cid = "123"` and a failing request. -/
theorem c6_danmu_fetch_failure_yields_empty_witness :
    crawl_danmu .requestError = [] ∧
    (mainRun "123".data .requestError).aborted = false ∧
    (mainRun "123".data .requestError).danmuSaved = false ∧
    (mainRun "123".data .requestError).commentsStageRun = true :=
  c6_danmu_fetch_failure_yields_empty "123".data .requestError (by decide) (Or.inl rfl)

/-- C2 counterexample: the claim quantifies over every limit `L`, but at
`limit = 0` the break check `len(results) >= limit` runs only after a first
match has been appended, so on the spec's example file the endpoint returns 1
match while `min(L, true match count) = min(0, 2) = 0`. -/
theorem c2_search_counterexample_limit_zero :
    ¬ ((searchLoop "love".data 0 exDanmu 1 0).length =
        min (Int.toNat 0) (specSearchMatches "love".data exDanmu 1).length) := by
  decide

/-- C2 (amended with `1 ≤ limit`): for every overlay-comment file and
non-empty keyword, `app.search_keyword` returns the success envelope whose
data is the prefix of the full in-order match list (1-based indices, parsed
contents, literal substring match) truncated at `limit`, and whose reported
total is the number of matches returned, `min(limit, true match count)` — not
the true total when more matches exist beyond the cap. -/
theorem c2_search_reports_capped_total (danmu : List Str) (kw : Str) (limit : Int)
    (hkw : kw ≠ []) (hlim : 1 ≤ limit) :
    search_keyword danmu (some kw) limit =
      (200, [("status".data, .str "success".data),
             ("keyword".data, .str kw),
             ("total".data,
              .num (((specSearchMatches kw danmu 1).take limit.toNat).length : Int)),
             ("data".data,
              .arr (((specSearchMatches kw danmu 1).take limit.toNat).map searchItemJson))]) ∧
    ((specSearchMatches kw danmu 1).take limit.toNat).length =
      min limit.toNat (specSearchMatches kw danmu 1).length := by
  have hres : searchLoop kw limit danmu 1 0 =
      (specSearchMatches kw danmu 1).take limit.toNat := by
    have h := searchLoop_eq_take kw limit danmu 1 0 (by omega)
    simpa using h
  constructor
  · unfold search_keyword
    simp [hkw, hres]
  · exact List.length_take limit.toNat (specSearchMatches kw danmu 1)

/-- Witness for C2 on the spec's example file with `keyword = "love"`,
`limit = 1`. -/
theorem c2_search_reports_capped_total_witness :
    ("love".data ≠ ([] : Str)) ∧ ((1 : Int) ≤ 1) ∧
    search_keyword exDanmu (some "love".data) 1 =
      (200, [("status".data, .str "success".data),
             ("keyword".data, .str "love".data),
             ("total".data, .num 1),
             ("data".data, .arr [searchItemJson ⟨1, "I love cats".data⟩])]) := by
  refine ⟨by decide, by norm_num, ?_⟩
  rw [(c2_search_reports_capped_total exDanmu "love".data 1 (by decide) (by norm_num)).1]
  rfl

/-- C5: `qgqx.export_word_freq_data` discards the first two lines
unconditionally and otherwise applies the per-line rule `keepReportLine`
(drop column-header rows containing both labels, drop blank rows, split the
stripped row on tabs, require ≥ 2 fields and an integer second field, default
the part-of-speech to `"未知"`); the row `"研究\t120\t名词"` yields
`{word := "研究", freq := 120, pos := "名词"}`, a non-numeric frequency row is
dropped, and a header-labelled row is excluded. -/
theorem c5_word_report_parsing :
    (∀ lines : List Str,
      export_word_freq_data lines = (lines.drop 2).filterMap keepReportLine) ∧
    export_word_freq_data exReport =
      [⟨"研究".data, 120, "名词".data⟩, ⟨"测试".data, 5, "未知".data⟩] ∧
    keepReportLine "研究\t120\t名词".data = some ⟨"研究".data, 120, "名词".data⟩ ∧
    keepReportLine "abc\txyz".data = none ∧
    keepReportLine "词语\t词频\t词性".data = none := by
  refine ⟨?_, by decide, by decide, by decide, by decide⟩
  intro lines
  match lines with
  | [] => rfl
  | [a] => rfl
  | a :: b :: rest =>
    show exportLoop 0 (a :: b :: rest) = rest.filterMap keepReportLine
    have h0 : exportLoop 0 (a :: b :: rest) = exportLoop 1 (b :: rest) := by
      simp [exportLoop]
    have h1 : exportLoop 1 (b :: rest) = exportLoop 2 rest := by
      simp [exportLoop]
    rw [h0, h1, exportLoop_from2 rest 2 (by norm_num)]

/-- C7: with an empty or absent `keyword` parameter, `app.search_keyword`
returns HTTP 200 with a payload whose `status` is `"error"`, which has a
`message` key and none of the `data`, `total` or `keyword` keys. -/
theorem c7_empty_keyword_structured_error (danmu : List Str) (kwParam : Option Str)
    (limit : Int) (h : kwParam = none ∨ kwParam = some []) :
    (search_keyword danmu kwParam limit).1 = 200 ∧
    jLookup "status".data (search_keyword danmu kwParam limit).2 =
      some (.str "error".data) ∧
    (jLookup "message".data (search_keyword danmu kwParam limit).2).isSome = true ∧
    jLookup "data".data (search_keyword danmu kwParam limit).2 = none ∧
    jLookup "total".data (search_keyword danmu kwParam limit).2 = none ∧
    jLookup "keyword".data (search_keyword danmu kwParam limit).2 = none := by
  rcases h with h | h <;> subst h <;>
    exact ⟨rfl, rfl, rfl, rfl, rfl, rfl⟩

/-- Witness for C7 with an absent keyword parameter. -/
theorem c7_empty_keyword_structured_error_witness :
    (search_keyword [] none 50).1 = 200 ∧
    jLookup "status".data (search_keyword [] none 50).2 = some (.str "error".data) ∧
    (jLookup "message".data (search_keyword [] none 50).2).isSome = true ∧
    jLookup "data".data (search_keyword [] none 50).2 = none ∧
    jLookup "total".data (search_keyword [] none 50).2 = none ∧
    jLookup "keyword".data (search_keyword [] none 50).2 = none :=
  c7_empty_keyword_structured_error [] none 50 (Or.inl rfl)

/-- C8: `app.get_word_frequency` returns exactly the first
`min(100, artifact length)` entries of the loaded artifact in stored order —
never more than 100 entries and never re-sorted (the returned list is a
positionwise prefix of the artifact). -/
theorem c8_word_frequency_first_100 (a : List Json) :
    (get_word_frequency a).1 = 200 ∧
    jLookup "data".data (get_word_frequency a).2 = some (.arr (a.take 100)) ∧
    (a.take 100).length = min 100 a.length ∧
    (a.take 100).length ≤ 100 ∧
    ∀ (i : Nat) (h1 : i < (a.take 100).length) (h2 : i < a.length),
      (a.take 100).get ⟨i, h1⟩ = a.get ⟨i, h2⟩ := by
  refine ⟨rfl, rfl, List.length_take 100 a, ?_, ?_⟩
  · rw [List.length_take]
    omega
  · intro i h1 h2
    simp [List.get_eq_getElem, List.getElem_take]

/-- Witness for C8 at the one-entry artifact `[Json.num 7]`. -/
theorem c8_word_frequency_first_100_witness :
    (get_word_frequency [Json.num 7]).1 = 200 ∧
    ([Json.num 7].take 100).length = min 100 1 ∧
    ([Json.num 7].take 100).get ⟨0, by norm_num⟩ = [Json.num 7].get ⟨0, by norm_num⟩ :=
  ⟨(c8_word_frequency_first_100 [Json.num 7]).1,
   (c8_word_frequency_first_100 [Json.num 7]).2.2.1,
   (c8_word_frequency_first_100 [Json.num 7]).2.2.2.2 0 (by norm_num) (by norm_num)⟩

/-- C9: in `qgqx.read_danmu_file` the synthetic time of the `i`-th (1-based)
line is `(i - 1) % 1000`; in particular line 1 gets time 0, line 1001 gets
time 0 and line 1500 gets time 499. -/
theorem c9_synthetic_time (lines : List Str) (i : Nat)
    (h1 : 1 ≤ i) (h2 : i ≤ lines.length) :
    ((read_danmu_file lines).get? (i - 1)).map DanmuRecord.time =
      some ((i - 1) % 1000) ∧
    timeStamp 1 = 0 ∧ timeStamp 1001 = 0 ∧ timeStamp 1500 = 499 := by
  refine ⟨?_, by decide, by decide, by decide⟩
  have hlt : i - 1 < lines.length := by omega
  have hget := readLoop_get? lines 1 (i - 1)
  rw [read_danmu_file, hget, List.get?_eq_get hlt]
  have harg : 1 + (i - 1) = i := by omega
  simp [timeStamp, harg]

/-- Witness for C9 at a one-line file and `i = 1`. -/
theorem c9_synthetic_time_witness :
    (1 : Nat) ≤ 1 ∧ (1 : Nat) ≤ ["1. a\n".data].length ∧
    ((read_danmu_file ["1. a\n".data]).get? 0).map DanmuRecord.time =
      some ((1 - 1) % 1000) :=
  ⟨by norm_num, by decide,
   (c9_synthetic_time ["1. a\n".data] 1 (by norm_num) (by decide)).1⟩

/-- C10: per-line parsing in `qgqx.read_danmu_file` is total — every line
(including empty or unnumbered lines) yields exactly one record, so the record
count equals the line count; the operations in the per-line `try` block are
total on strings, leaving the `except` branch unreachable. -/
theorem c10_read_danmu_total (lines : List Str) :
    (read_danmu_file lines).length = lines.length ∧
    (∀ i, i < lines.length → ((read_danmu_file lines).get? i).isSome = true) ∧
    read_danmu_file ["".data, "x".data] = [⟨[], 0⟩, ⟨"x".data, 1⟩] := by
  refine ⟨readLoop_length lines 1, ?_, by decide⟩
  intro i hi
  rw [read_danmu_file, readLoop_get? lines 1 i, List.get?_eq_get hi]
  rfl

/-- Witness for C10 at a one-line file and `i = 0`. -/
theorem c10_read_danmu_total_witness :
    (read_danmu_file ["".data]).length = ["".data].length ∧
    ((read_danmu_file ["".data]).get? 0).isSome = true :=
  ⟨(c10_read_danmu_total ["".data]).1,
   (c10_read_danmu_total ["".data]).2.1 0 (by decide)⟩

end JJLPC
